import Mathlib

set_option linter.unusedVariables false

namespace IecSim

/-- Shallow embedding of a decoded MessagePack value (a C++ `msgpack::object`).
`pos`/`neg` mirror msgpack's POSITIVE_INTEGER/NEGATIVE_INTEGER; `float64`
stands for both FLOAT32 and FLOAT64 (the numeric content is carried as a
rational and only ever copied, never computed with). Map entries keep wire
order, and keys may be arbitrary values as on the wire. -/
inductive MValue : Type where
  | nil : MValue
  | boolean : Bool → MValue
  | pos : Nat → MValue
  | neg : Int → MValue
  | float64 : Rat → MValue
  | str : String → MValue
  | arr : List MValue → MValue
  | map : List (MValue × MValue) → MValue

/-- Linear scan of map entries used by `find_key`: only string keys are
compared, the first match wins (msgpack_codec.cpp, find_key). -/
def findKeyEntries : List (MValue × MValue) → String → Option MValue
  | [], _ => none
  | (k, v) :: rest, key =>
    match k with
    | .str s => if s = key then some v else findKeyEntries rest key
    | _ => findKeyEntries rest key

/-- Embedding of `ipc::codec::find_key`: returns nothing unless the outer
object is a map; otherwise the first value under a string key equal to
`key`. -/
def find_key (mapObj : MValue) (key : String) : Option MValue :=
  match mapObj with
  | .map entries => findKeyEntries entries key
  | _ => none

/-- Embedding of `ipc::codec::as_string` (msgpack_codec.cpp). -/
def as_string (obj : MValue) (fallback : String) : String :=
  match obj with
  | .str s => s
  | _ => fallback

/-- Wrap of a msgpack u64 through `static_cast<int64_t>` (two's complement). -/
def u64ToInt64 (n : Nat) : Int :=
  if n < 2 ^ 63 then (n : Int) else (n : Int) - 2 ^ 64

/-- Embedding of `ipc::codec::as_int64` (msgpack_codec.cpp). -/
def as_int64 (obj : MValue) (fallback : Int) : Int :=
  match obj with
  | .pos n => u64ToInt64 n
  | .neg i => i
  | _ => fallback

/-- Embedding of `ipc::codec::as_bool` (msgpack_codec.cpp). -/
def as_bool (obj : MValue) (fallback : Bool) : Bool :=
  match obj with
  | .boolean b => b
  | _ => fallback

/-- Embedding of `ipc::codec::as_double` (msgpack_codec.cpp); integers are
widened, floats pass through. -/
def as_double (obj : MValue) (fallback : Rat) : Rat :=
  match obj with
  | .float64 q => q
  | .pos n => (n : Rat)
  | .neg i => (i : Rat)
  | _ => fallback

/-- Embedding of `ipc::codec::Request`; a default-constructed
`msgpack::object` is NIL, hence the payload default. -/
structure RequestM where
  id : String := ""
  action : String := ""
  payload : MValue := .nil
  has_payload : Bool := false

/-- Embedding of `ipc::codec::decode_request`. The raw-byte `msgpack::unpack`
step belongs to the external msgpack library, so it enters as an
`Except String MValue`: `.error e` models an unpack exception with message
`e`, `.ok root` a successfully unpacked outer value. The repository code
adds no map check of its own: `find_key` simply yields nothing on a
non-map root. -/
def decodedRequest (root : MValue) : RequestM :=
  let req0 : RequestM := {}
  let req1 :=
    match find_key root "id" with
    | some idObj => { req0 with id := as_string idObj "" }
    | none => req0
  let req2 :=
    match find_key root "action" with
    | some actionObj => { req1 with action := as_string actionObj "" }
    | none => req1
  let req3 :=
    match find_key root "payload" with
    | some p => { req2 with payload := p, has_payload := true }
    | none => req2
  req3

def decode_request (unpacked : Except String MValue) : Except String RequestM :=
  match unpacked with
  | .error e => .error e
  | .ok root => .ok (decodedRequest root)

/-- One element written to a `msgpack::packer` stream. The response byte
strings produced by the daemon are modelled as lists of these tokens, in
the order the source packs them; `tmap n`/`tarr n` are the collection
headers, scalars follow inline exactly as packed. -/
inductive Tok : Type where
  | tmap : Nat → Tok
  | tarr : Nat → Tok
  | tnil : Tok
  | tbool : Bool → Tok
  | tint : Int → Tok
  | tuint : Nat → Tok
  | tfloat : Rat → Tok
  | tstr : String → Tok
deriving DecidableEq

/-- Embedding of `ipc::codec::pack_error`: a one-entry map carrying the
message. -/
def pack_error (message : String) : List Tok :=
  [.tmap 1, .tstr "message", .tstr message]

/-- Embedding of `ipc::codec::pack_success_payload`. -/
def pack_success_payload : List Tok :=
  [.tmap 1, .tstr "success", .tbool true]

/-- Embedding of `ActionHandler::pack_error_response` (action.cpp): empty
payload map followed by the error object. -/
def pack_error_response (error_msg : String) : List Tok :=
  [.tstr "payload", .tmap 0, .tstr "error"] ++ pack_error error_msg

/-- Whether an object has msgpack MAP type. -/
def mvalueIsMap : MValue → Bool
  | .map _ => true
  | _ => false

/-- Embedding of `ActionContext` (action_base.hpp), minus the context
reference which is threaded separately. -/
structure ActionContextM where
  action : String
  payload : MValue
  has_payload : Bool

/-- The boolean test of `ActionHandler::ensure_payload_map` (action.cpp):
true when a payload is present and is a map. When it is false the C++
helper packs the "Missing payload" error response, which each handler
embedding reproduces at the call site. -/
def ensure_payload_map (ctx : ActionContextM) : Bool :=
  ctx.has_payload && mvalueIsMap ctx.payload

/-- Embedding of `ActionHandler::extract_instance_id` (action.cpp). -/
def extract_instance_id (payload : MValue) : String :=
  match find_key payload "instance_id" with
  | some idObj =>
    let id := as_string idObj ""
    if id ≠ "" then id else ""
  | none => ""

/-- Embedding of `ClientInfo` (core_context.hpp). -/
structure ClientInfoM where
  id : String
  connected_at : String
deriving DecidableEq

/-- Declared data-attribute types (libiec61850 `DataAttributeType`), the
cases distinguished by server_actions.cpp / server_load_model.cpp. -/
inductive DAType : Type where
  | boolean | int8 | int16 | int32 | enumerated | int64
  | int8u | int16u | int24u | int32u
  | float32 | float64
  | visString32 | visString64 | visString129 | visString255 | unicodeString255
  | octetString64 | quality | timestamp | check | constructed
deriving DecidableEq

/-- The stack-held current value of a data attribute, read back through the
typed `IedServer_get*AttributeValue` accessors. -/
inductive StackVal : Type where
  | boolV : Bool → StackVal
  | intV : Int → StackVal
  | uintV : Nat → StackVal
  | floatV : Rat → StackVal
  | strV : Option String → StackVal
  | noneV : StackVal
deriving DecidableEq

/-- Model of `IedServer_getBooleanAttributeValue` on the stored value. -/
def getBooleanAttributeValue : StackVal → Bool
  | .boolV b => b
  | _ => false

/-- Model of `IedServer_getInt32AttributeValue` / `getInt64AttributeValue`. -/
def getIntAttributeValue : StackVal → Int
  | .intV i => i
  | _ => 0

/-- Model of `IedServer_getUInt32AttributeValue`. -/
def getUInt32AttributeValue : StackVal → Nat
  | .uintV n => n
  | _ => 0

/-- Model of `IedServer_getFloatAttributeValue`. -/
def getFloatAttributeValue : StackVal → Rat
  | .floatV q => q
  | _ => 0

/-- Model of `IedServer_getStringAttributeValue` (may return a null
pointer, hence the option). -/
def getStringAttributeValue : StackVal → Option String
  | .strV s => s
  | _ => none

/-- A node found by `IedModel_getModelNodeByObjectReference`: either a data
attribute (with its declared type and stack-held current value) or a node
of any other model type. -/
inductive ModelNodeM : Type where
  | dataAttribute : DAType → StackVal → ModelNodeM
  | otherNode : ModelNodeM
deriving DecidableEq

/-- The live IED model, abstracted to the observations the handlers make of
it: resolution of object-reference strings to nodes. -/
def IedModelM : Type := List (String × ModelNodeM)

instance : DecidableEq IedModelM := by unfold IedModelM; infer_instance

/-- First-match association-list lookup (the observable behaviour of both
`IedModel_getModelNodeByObjectReference` on the model abstraction and of
the registry's `std::unordered_map::find`, whose keys are unique). -/
def assocLookup : List (String × α) → String → Option α
  | [], _ => none
  | (k, v) :: rest, key => if k = key then some v else assocLookup rest key

/-- Replace the value stored under an existing key, leaving other entries
untouched. -/
def assocSet (l : List (String × α)) (key : String) (v : α) : List (String × α) :=
  l.map (fun e => if e.1 = key then (key, v) else e)

/-- Drop the entry stored under a key (`std::unordered_map::erase`; keys
are unique). -/
def assocRemove : List (String × α) → String → List (String × α)
  | [], _ => []
  | e :: rest, key => if e.1 = key then assocRemove rest key else e :: assocRemove rest key

/-- Model resolution, `IedModel_getModelNodeByObjectReference`. -/
def resolveRef (model : IedModelM) (ref : String) : Option ModelNodeM :=
  assocLookup model ref

/-- Embedding of `ServerInstanceContext` (core_context.hpp plus the
`ip_configured` flag the per-instance server_actions.cpp variant keeps on
the instance). Owned stack handles (`server`, `config`) are abstracted to
presence flags; `model` keeps its resolution behaviour. -/
structure ServerInstanceContextM where
  instance_id : String := ""
  ied_name : String := ""
  ip_address : String := "0.0.0.0"
  model : Option IedModelM := none
  server : Option Unit := none
  config : Option Unit := none
  clients : List ClientInfoM := []
  port : Int := 102
  running : Bool := false
  ip_configured : Bool := false
deriving DecidableEq

/-- Embedding of `ClientInstanceContext` (core_context.hpp). -/
structure ClientInstanceContextM where
  instance_id : String := ""
  target_host : String := ""
  target_port : Int := 102
  ied_name : String := "IED"
  connection : Option Unit := none
  connected : Bool := false
deriving DecidableEq

/-- Embedding of `BackendContext` (core_context.hpp plus the process-wide
interface fields used by server_actions.cpp). The mutex is not modelled:
every handler holds it for its whole body, so handler execution is the
atomic step. Instance maps are association lists with unique keys. -/
structure BackendContextM where
  server_instances : List (String × ServerInstanceContextM) := []
  client_instances : List (String × ClientInstanceContextM) := []
  global_interface_name : String := ""
  global_prefix_len : Int := 24
deriving DecidableEq

/-- Embedding of `BackendContext::get_server_instance`. -/
def getServerInstance (st : BackendContextM) (iid : String) : Option ServerInstanceContextM :=
  assocLookup st.server_instances iid

/-- Embedding of `BackendContext::get_or_create_server_instance`. -/
def getOrCreateServerInstance (st : BackendContextM) (iid : String) :
    BackendContextM × ServerInstanceContextM :=
  match assocLookup st.server_instances iid with
  | some inst => (st, inst)
  | none =>
    let inst : ServerInstanceContextM := { instance_id := iid }
    ({ st with server_instances := st.server_instances ++ [(iid, inst)] }, inst)

/-- Write back a mutated server instance (the C++ mutates through the
pointer returned by the registry). -/
def setServerInstance (st : BackendContextM) (iid : String) (inst : ServerInstanceContextM) :
    BackendContextM :=
  { st with server_instances := assocSet st.server_instances iid inst }

/-- Embedding of `BackendContext::remove_server_instance`. -/
def removeServerInstance (st : BackendContextM) (iid : String) : BackendContextM :=
  { st with server_instances := assocRemove st.server_instances iid }

/-- Embedding of `BackendContext::get_client_instance`. -/
def getClientInstance (st : BackendContextM) (iid : String) : Option ClientInstanceContextM :=
  assocLookup st.client_instances iid

/-- Embedding of `BackendContext::get_or_create_client_instance`. -/
def getOrCreateClientInstance (st : BackendContextM) (iid : String) :
    BackendContextM × ClientInstanceContextM :=
  match assocLookup st.client_instances iid with
  | some inst => (st, inst)
  | none =>
    let inst : ClientInstanceContextM := { instance_id := iid }
    ({ st with client_instances := st.client_instances ++ [(iid, inst)] }, inst)

/-- Write back a mutated client instance. -/
def setClientInstance (st : BackendContextM) (iid : String) (inst : ClientInstanceContextM) :
    BackendContextM :=
  { st with client_instances := assocSet st.client_instances iid inst }

/-- Embedding of `BackendContext::remove_client_instance`. -/
def removeClientInstance (st : BackendContextM) (iid : String) : BackendContextM :=
  { st with client_instances := assocRemove st.client_instances iid }

/-- External side effects a handler performs, in execution order: calls
into the IEC 61850 stack that release or create resources, registry
erasure, and route-netlink operations. -/
inductive Ev : Type where
  | nlOpenSocket : Ev
  | nlGetIfIndex : String → Ev
  | nlAddrAdd : String → String → Int → String → Ev
  | nlAddrDelete : String → String → Int → Ev
  | iedStop : String → Ev
  | iedDestroy : String → Ev
  | configDestroy : String → Ev
  | modelDestroy : String → Ev
  | clearClients : String → Ev
  | eraseInstance : String → Ev
  | iedCreate : String → Ev
  | configCreate : String → Ev
  | setLocalIp : String → String → Ev
  | iedStart : String → Int → Ev
  | connClose : String → Ev
  | connDestroy : String → Ev
  | connCreate : String → Ev
  | connConnect : String → String → Int → Ev
deriving DecidableEq

/-- Outcomes of the libnl syscalls made by network_config.cpp; the netlink
kernel interface is an external collaborator, so its return values enter
as an oracle. Defaults model the all-success run. -/
structure NlOracle where
  socket_ok : Bool := true
  if_index : Int := 1
  alloc_ok : Bool := true
  parse_ok : Bool := true
  add_ret : Int := 0
  delete_ret : Int := 0
deriving DecidableEq

/-- network_config.cpp constant `NL_ERROR_EXISTS` (-EEXIST). -/
def NL_ERROR_EXISTS : Int := -17

/-- network_config.cpp constant `NL_ERROR_OBJECT_EXISTS` (-NLE_EXIST,
libnl-3 NLE_EXIST = 6). -/
def NL_ERROR_OBJECT_EXISTS : Int := -6

/-- network_config.cpp constant `NL_ERROR_NO_ADDR` (-EADDRNOTAVAIL). -/
def NL_ERROR_NO_ADDR : Int := -99

/-- network_config.cpp constant `NL_ERROR_INVALID` (-NLE_NOADDR,
libnl-3 NLE_NOADDR = 19). -/
def NL_ERROR_INVALID : Int := -19

/-- Embedding of `network::should_configure_ip` (network_config.cpp):
false for the wildcard address and for any string whose first four
characters are `127.` (C++ `substr(0, 4)` is `String.take 4`). -/
def should_configure_ip (ip_address : String) : Bool :=
  if ip_address = "0.0.0.0" ∨ ip_address.take 4 = "127." then false else true

/-- Embedding of `network::add_ip_address` (network_config.cpp lines
165-225). Returns the boolean result paired with the netlink operations
performed, in order. Note the function itself applies no wildcard or
loopback guard: it opens a netlink session for every input. -/
def add_ip_address (o : NlOracle) (interface_name ip_address : String)
    (prefixLen : Int) (label : String) : Bool × List Ev :=
  let evs0 := [Ev.nlOpenSocket]
  if !o.socket_ok then (false, evs0) else
  let evs1 := evs0 ++ [Ev.nlGetIfIndex interface_name]
  if o.if_index = 0 then (false, evs1) else
  if !o.alloc_ok then (false, evs1) else
  if !o.parse_ok then (false, evs1) else
  let evs2 := evs1 ++ [Ev.nlAddrAdd interface_name ip_address prefixLen label]
  if o.add_ret < 0 ∧ o.add_ret ≠ NL_ERROR_EXISTS ∧ o.add_ret ≠ NL_ERROR_OBJECT_EXISTS then
    (false, evs2)
  else
    (true, evs2)

/-- Embedding of `network::remove_ip_address` (network_config.cpp lines
227-286). Unlike the add path, removal checks `should_configure_ip` first
and returns true with no netlink operation for wildcard/loopback
addresses. -/
def remove_ip_address (o : NlOracle) (interface_name ip_address : String)
    (prefixLen : Int) : Bool × List Ev :=
  if !should_configure_ip ip_address then (true, []) else
  let evs0 := [Ev.nlOpenSocket]
  if !o.socket_ok then (false, evs0) else
  let evs1 := evs0 ++ [Ev.nlGetIfIndex interface_name]
  if o.if_index = 0 then (false, evs1) else
  if !o.alloc_ok then (false, evs1) else
  if !o.parse_ok then (false, evs1) else
  let evs2 := evs1 ++ [Ev.nlAddrDelete interface_name ip_address prefixLen]
  if o.delete_ret < 0 ∧ o.delete_ret ≠ NL_ERROR_NO_ADDR ∧ o.delete_ret ≠ NL_ERROR_INVALID then
    (false, evs2)
  else
    (true, evs2)

/-- Wrap of an int64 through `static_cast<int32_t>` (two's complement). -/
def int64ToInt32wrap (v : Int) : Int :=
  (v + 2 ^ 31).emod (2 ^ 32) - 2 ^ 31

/-- Wrap of an int64 through `static_cast<uint32_t>`. -/
def int64ToUInt32wrap (v : Int) : Nat :=
  (v.emod (2 ^ 32)).toNat

/-- Embedding of the anonymous `update_attribute_value` helper
(server_actions.cpp lines 106-153): the typed `IedServer_update*` call is
selected by the attribute's declared type; types outside the switch leave
the value untouched. The float32/float64 narrowing to `float` is not
modelled numerically (the rational payload is carried through). -/
def update_attribute_value (ty : DAType) (cur : StackVal) (value_obj : MValue) : StackVal :=
  match ty with
  | .boolean => .boolV (as_bool value_obj false)
  | .int8 | .int16 | .int32 | .enumerated => .intV (int64ToInt32wrap (as_int64 value_obj 0))
  | .int64 => .intV (as_int64 value_obj 0)
  | .int8u | .int16u | .int32u => .uintV (int64ToUInt32wrap (as_int64 value_obj 0))
  | .float32 | .float64 => .floatV (as_double value_obj 0)
  | .visString32 | .visString64 | .visString129 | .visString255 | .unicodeString255 =>
    .strV (some (as_string value_obj ""))
  | _ => cur

/-- The `value` token packed by `pack_attribute_value`
(server_actions.cpp lines 59-99), by declared type. Note INT24U is absent
from the C switch and therefore packs nil. -/
def packAttrValueTok (ty : DAType) (cur : StackVal) : List Tok :=
  match ty with
  | .boolean => [.tbool (getBooleanAttributeValue cur)]
  | .int8 | .int16 | .int32 | .enumerated => [.tint (getIntAttributeValue cur)]
  | .int64 => [.tint (getIntAttributeValue cur)]
  | .int8u | .int16u | .int32u => [.tuint (getUInt32AttributeValue cur)]
  | .float32 => [.tfloat (getFloatAttributeValue cur)]
  | .float64 => [.tfloat (getFloatAttributeValue cur)]
  | .visString32 | .visString64 | .visString129 | .visString255 | .unicodeString255 =>
    [.tstr ((getStringAttributeValue cur).getD "")]
  | _ => [.tnil]

/-- The three-entry record packed for a resolved data attribute:
current value, placeholder quality 0, placeholder nil timestamp. -/
def attrValueRecord (ty : DAType) (cur : StackVal) : List Tok :=
  [.tmap 3, .tstr "value"] ++ packAttrValueTok ty cur ++
    [.tstr "quality", .tint 0, .tstr "timestamp", .tnil]

/-- The all-null three-entry record for an unresolved or non-attribute
reference. -/
def nullValueRecord : List Tok :=
  [.tmap 3, .tstr "value", .tnil, .tstr "quality", .tint 0, .tstr "timestamp", .tnil]

/-- Embedding of `pack_attribute_value` (server_actions.cpp lines 47-104),
null attribute pointer included. -/
def pack_attribute_value : Option (DAType × StackVal) → List Tok
  | none => nullValueRecord
  | some (ty, cur) => attrValueRecord ty cur

/-- The functional constraints tried by the client read/write loops. -/
inductive FC : Type where
  | st | mx | sp | cf
deriving DecidableEq

/-- MMS values returned by `IedConnection_readObject`, carrying the content
the handlers extract (MmsValue_getType plus the typed accessor). -/
inductive MmsVal : Type where
  | mBoolean : Bool → MmsVal
  | mInteger : Int → MmsVal
  | mUnsigned : Nat → MmsVal
  | mFloat : Rat → MmsVal
  | mVisibleString : String → MmsVal
  | mString : String → MmsVal
  | mOther : MmsVal
deriving DecidableEq

/-- Model of `MmsValue_getBoolean`. -/
def MmsValue_getBoolean : MmsVal → Bool
  | .mBoolean b => b
  | _ => false

/-- Model of `MmsValue_toInt64`. -/
def MmsValue_toInt64 : MmsVal → Int
  | .mInteger i => i
  | _ => 0

/-- Model of `MmsValue_toUint32` (content truncated to 32 bits). -/
def MmsValue_toUint32 : MmsVal → Nat
  | .mUnsigned n => n % 2 ^ 32
  | _ => 0

/-- Model of `MmsValue_toDouble`. -/
def MmsValue_toDouble : MmsVal → Rat
  | .mFloat q => q
  | _ => 0

/-- Model of `MmsValue_toString` on visible/mms strings. -/
def MmsValue_toStringM : MmsVal → String
  | .mVisibleString s => s
  | .mString s => s
  | _ => ""

/-- Result of a call into the external IEC 61850 client stack: the
`IedClientError` compared against `IED_ERROR_OK` (`ok`) together with its
`IedClientError_toString` rendering (`text`). -/
structure IedClientResultM where
  ok : Bool
  text : String
deriving DecidableEq

/-- An `InterfaceInfo` as produced by `network::get_network_interfaces`. -/
structure InterfaceInfoM where
  name : String := ""
  description : String := ""
  is_up : Bool := false
  addresses : List String := []
deriving DecidableEq

/-- Which typed write `client.write` selects from the payload's msgpack
type. -/
inductive WriteKind : Type where
  | wBool | wFloat | wString | wInt
deriving DecidableEq

/-- Behaviour of the external collaborators for one handler execution: the
IEC 61850 stack (server and client sides), the model builder's output tree
(`build_model_from_dict` constructs external stack entities; no claim
depends on the tree it returns, so it enters as an oracle), interface
enumeration, and the netlink syscalls. -/
structure StackOracle where
  is_running_after_start : Bool := true
  build_model : MValue → IedModelM := fun _ => []
  connect_result : IedClientResultM := ⟨true, "no error"⟩
  read_object : String → FC → IedClientResultM × Option MmsVal := fun _ _ => (⟨true, "no error"⟩, none)
  write_result : WriteKind → String → FC → IedClientResultM := fun _ _ _ => ⟨true, "no error"⟩
  ld_list : IedClientResultM × Option (List String) := (⟨true, "no error"⟩, none)
  ln_list : String → IedClientResultM × Option (List String) := fun _ => (⟨true, "no error"⟩, none)
  var_list : String → IedClientResultM × Option (List String) := fun _ => (⟨true, "no error"⟩, none)
  attr_list : String → IedClientResultM × Option (List String) := fun _ => (⟨true, "no error"⟩, none)
  interfaces : List InterfaceInfoM := []
  nl : NlOracle := {}

/-- What one handler execution produces: the tokens it appends to the
response stream after the dispatcher's prefix, the external effects in
order, and the updated registry. -/
structure HOut where
  toks : List Tok
  evs : List Ev
  ctx : BackendContextM

/-- The alias-configuration block of `server.start` (server_actions.cpp
lines 220-228): only when the effective IP passes `should_configure_ip`
and a global interface is set does the handler call `add_ip_address`, with
the label `<iface>:iec<instance_id>`; the returned flag is whether
`ip_configured` gets set. -/
def startConfigureIpBlock (o : NlOracle) (giface : String) (gplen : Int)
    (iid ip : String) : Bool × List Ev :=
  if should_configure_ip ip ∧ giface ≠ "" then
    add_ip_address o giface ip gplen (giface ++ ":iec" ++ iid)
  else (false, [])

/-- Embedding of `ServerStartAction::handle` (server_actions.cpp lines
159-250). -/
def serverStartHandle (orc : StackOracle) (actx : ActionContextM) (st : BackendContextM) : HOut :=
  if !ensure_payload_map actx then ⟨pack_error_response "Missing payload", [], st⟩ else
  let instance_id := extract_instance_id actx.payload
  if instance_id = "" then ⟨pack_error_response "instance_id is required", [], st⟩ else
  match getServerInstance st instance_id with
  | none => ⟨pack_error_response "Server not initialized. Call server.load_model first", [], st⟩
  | some inst0 =>
    match inst0.model with
    | none => ⟨pack_error_response "Server not initialized. Call server.load_model first", [], st⟩
    | some _ =>
      let (inst1, evsCfg) :=
        if inst0.config.isSome then (inst0, [])
        else ({ inst0 with config := some () }, [Ev.configCreate instance_id])
      let (inst2, evsSrv) :=
        if inst1.server.isSome then (inst1, [])
        else
          ({ inst1 with server := some () },
           Ev.iedCreate instance_id ::
             (if inst1.ip_address ≠ "0.0.0.0" then [Ev.setLocalIp instance_id inst1.ip_address] else []))
      let (inst3, evsStopOld) :=
        if inst2.running then ({ inst2 with running := false }, [Ev.iedStop instance_id])
        else (inst2, [])
      let port0 := inst3.port
      let ip0 := inst3.ip_address
      let (inst4, port1, ip1, evsIp) :=
        match find_key actx.payload "config" with
        | some cfgObj =>
          if mvalueIsMap cfgObj then
            let pA :=
              match find_key cfgObj "port" with
              | some portObj =>
                let p := as_int64 portObj inst3.port
                ({ inst3 with port := p }, p)
              | none => (inst3, port0)
            match find_key cfgObj "ip_address" with
            | some ipObj =>
              let ip := as_string ipObj pA.1.ip_address
              if ip ≠ "0.0.0.0" then
                ({ pA.1 with ip_address := ip }, pA.2, ip, [Ev.setLocalIp instance_id ip])
              else (pA.1, pA.2, ip, [])
            | none => (pA.1, pA.2, ip0, [])
          else (inst3, port0, ip0, [])
        | none => (inst3, port0, ip0, [])
      let nlR := startConfigureIpBlock orc.nl st.global_interface_name st.global_prefix_len
        instance_id ip1
      let inst5 := if nlR.1 then { inst4 with ip_configured := true } else inst4
      let evsNl := nlR.2
      let inst6 := { inst5 with running := orc.is_running_after_start }
      let st1 := setServerInstance st instance_id inst6
      ⟨[.tstr "payload", .tmap 2, .tstr "success", .tbool inst6.running,
        .tstr "instance_id", .tstr instance_id, .tstr "error", .tnil],
       evsCfg ++ evsSrv ++ evsStopOld ++ evsIp ++ evsNl ++ [Ev.iedStart instance_id port1],
       st1⟩

/-- Embedding of `ServerStopAction::handle` (server_actions.cpp lines
252-284). -/
def serverStopHandle (orc : StackOracle) (actx : ActionContextM) (st : BackendContextM) : HOut :=
  if !ensure_payload_map actx then ⟨pack_error_response "Missing payload", [], st⟩ else
  let instance_id := extract_instance_id actx.payload
  if instance_id = "" then ⟨pack_error_response "instance_id is required", [], st⟩ else
  let r :=
    match getServerInstance st instance_id with
    | some inst =>
      if inst.server.isSome ∧ inst.running then
        (setServerInstance st instance_id { inst with running := false }, [Ev.iedStop instance_id])
      else (st, ([] : List Ev))
    | none => (st, [])
  ⟨[.tstr "payload"] ++ pack_success_payload ++ [.tstr "error", .tnil], r.2, r.1⟩

/-- Embedding of `ServerRemoveAction::handle` (server_actions.cpp lines
286-340). The IP alias is removed first (before any stack teardown), then
server stop/destroy, config destroy, model destroy, client-list clear, and
finally the registry erase. -/
def serverRemoveHandle (orc : StackOracle) (actx : ActionContextM) (st : BackendContextM) : HOut :=
  if !ensure_payload_map actx then ⟨pack_error_response "Missing payload", [], st⟩ else
  let instance_id := extract_instance_id actx.payload
  if instance_id = "" then ⟨pack_error_response "instance_id is required", [], st⟩ else
  match getServerInstance st instance_id with
  | none => ⟨[.tstr "payload"] ++ pack_success_payload ++ [.tstr "error", .tnil], [], st⟩
  | some inst =>
    let ipR :=
      if inst.ip_configured ∧ st.global_interface_name ≠ "" then
        (({ inst with ip_configured := false } : ServerInstanceContextM),
         (remove_ip_address orc.nl st.global_interface_name inst.ip_address st.global_prefix_len).2)
      else (inst, [])
    let srvR :=
      if ipR.1.server.isSome then
        (({ ipR.1 with server := none, running := false } : ServerInstanceContextM),
         (if ipR.1.running then [Ev.iedStop instance_id] else []) ++ [Ev.iedDestroy instance_id])
      else (ipR.1, ([] : List Ev))
    let cfgR :=
      if srvR.1.config.isSome then
        (({ srvR.1 with config := none } : ServerInstanceContextM), [Ev.configDestroy instance_id])
      else (srvR.1, ([] : List Ev))
    let mdlR :=
      if cfgR.1.model.isSome then
        (({ cfgR.1 with model := none } : ServerInstanceContextM), [Ev.modelDestroy instance_id])
      else (cfgR.1, ([] : List Ev))
    let inst5 := { mdlR.1 with clients := [] }
    let st1 := setServerInstance st instance_id inst5
    let st2 := removeServerInstance st1 instance_id
    ⟨[.tstr "payload"] ++ pack_success_payload ++ [.tstr "error", .tnil],
     ipR.2 ++ srvR.2 ++ cfgR.2 ++ mdlR.2 ++ [Ev.clearClients instance_id, Ev.eraseInstance instance_id],
     st2⟩

/-- Embedding of `ServerLoadModelAction::handle` (server_load_model.cpp
lines 791-870). The old server is stopped and destroyed when present, yet
`running` is left untouched by this handler, exactly as in the source. -/
def serverLoadModelHandle (orc : StackOracle) (actx : ActionContextM) (st : BackendContextM) : HOut :=
  if !ensure_payload_map actx then ⟨pack_error_response "Missing payload", [], st⟩ else
  let instance_id := extract_instance_id actx.payload
  if instance_id = "" then ⟨pack_error_response "instance_id is required", [], st⟩ else
  match find_key actx.payload "model" with
  | none => ⟨pack_error_response "model payload is required", [], st⟩
  | some modelObj =>
    let p := getOrCreateServerInstance st instance_id
    let st0 := p.1
    let inst0 := p.2
    let srvR :=
      if inst0.server.isSome then
        (({ inst0 with server := none } : ServerInstanceContextM),
         [Ev.iedStop instance_id, Ev.iedDestroy instance_id])
      else (inst0, ([] : List Ev))
    let cfgR :=
      if srvR.1.config.isSome then
        (({ srvR.1 with config := none } : ServerInstanceContextM), [Ev.configDestroy instance_id])
      else (srvR.1, ([] : List Ev))
    let mdlR :=
      if cfgR.1.model.isSome then
        (({ cfgR.1 with model := none } : ServerInstanceContextM), [Ev.modelDestroy instance_id])
      else (cfgR.1, ([] : List Ev))
    let ied_name :=
      match find_key modelObj "name" with
      | some nameObj => as_string nameObj "IED"
      | none => "IED"
    let inst4 := { mdlR.1 with model := some (orc.build_model modelObj), ied_name := ied_name }
    let inst5 := { inst4 with config := some () }
    let cfg := find_key actx.payload "config"
    let port :=
      match cfg with
      | some c =>
        if mvalueIsMap c then
          match find_key c "port" with
          | some portObj => as_int64 portObj 102
          | none => 102
        else 102
      | none => 102
    let ip_address :=
      match cfg with
      | some c =>
        if mvalueIsMap c then
          match find_key c "ip_address" with
          | some ipObj => as_string ipObj "0.0.0.0"
          | none => "0.0.0.0"
        else "0.0.0.0"
      | none => "0.0.0.0"
    let inst6 := { inst5 with port := port, ip_address := ip_address }
    let st1 := setServerInstance st0 instance_id inst6
    ⟨[.tstr "payload", .tmap 2, .tstr "success", .tbool true,
      .tstr "instance_id", .tstr instance_id, .tstr "error", .tnil],
     srvR.2 ++ cfgR.2 ++ mdlR.2 ++ [Ev.configCreate instance_id],
     st1⟩

/-- Embedding of `ServerSetDataValueAction::handle` (server_actions.cpp
lines 342-385). A reference that resolves to a non-attribute node, or not
at all, is silently ignored. -/
def serverSetDataValueHandle (orc : StackOracle) (actx : ActionContextM) (st : BackendContextM) : HOut :=
  if !ensure_payload_map actx then ⟨pack_error_response "Missing payload", [], st⟩ else
  let instance_id := extract_instance_id actx.payload
  if instance_id = "" then ⟨pack_error_response "instance_id is required", [], st⟩ else
  match getServerInstance st instance_id, find_key actx.payload "reference",
      find_key actx.payload "value" with
  | some inst, some refObj, some valueObj =>
    match inst.server, inst.model with
    | some _, some mdl =>
      let reference := as_string refObj ""
      let st1 :=
        match resolveRef mdl reference with
        | some (.dataAttribute ty cur) =>
          let mdl1 := assocSet mdl reference (.dataAttribute ty (update_attribute_value ty cur valueObj))
          setServerInstance st instance_id { inst with model := some mdl1 }
        | _ => st
      ⟨[.tstr "payload"] ++ pack_success_payload ++ [.tstr "error", .tnil], [], st1⟩
    | _, _ =>
      ⟨pack_error_response "Invalid request: missing server, model, reference, or value", [], st⟩
  | _, _, _ =>
    ⟨pack_error_response "Invalid request: missing server, model, reference, or value", [], st⟩

/-- The per-reference key/record pair packed by `server.get_values`. -/
def getValuesEntry (mdl : IedModelM) (refObj : MValue) : List Tok :=
  let reference := as_string refObj ""
  .tstr reference ::
    (match resolveRef mdl reference with
     | some (.dataAttribute ty cur) => pack_attribute_value (some (ty, cur))
     | _ => nullValueRecord)

/-- Embedding of `ServerGetValuesAction::handle` (server_actions.cpp lines
387-439). -/
def serverGetValuesHandle (orc : StackOracle) (actx : ActionContextM) (st : BackendContextM) : HOut :=
  if !ensure_payload_map actx then ⟨pack_error_response "Missing payload", [], st⟩ else
  let instance_id := extract_instance_id actx.payload
  if instance_id = "" then ⟨pack_error_response "instance_id is required", [], st⟩ else
  match getServerInstance st instance_id, find_key actx.payload "references" with
  | some inst, some refsObj =>
    match inst.server, inst.model, refsObj with
    | some _, some mdl, .arr refs =>
      ⟨[.tstr "payload", .tmap 1, .tstr "values", .tmap refs.length]
        ++ refs.flatMap (getValuesEntry mdl) ++ [.tstr "error", .tnil], [], st⟩
    | _, _, _ =>
      ⟨pack_error_response "Invalid request: missing server, model, or references array", [], st⟩
  | _, _ =>
    ⟨pack_error_response "Invalid request: missing server, model, or references array", [], st⟩

/-- Embedding of `ServerGetClientsAction::handle` (server_actions.cpp lines
441-481): a missing instance yields an empty array, not an error. -/
def serverGetClientsHandle (orc : StackOracle) (actx : ActionContextM) (st : BackendContextM) : HOut :=
  if !ensure_payload_map actx then ⟨pack_error_response "Missing payload", [], st⟩ else
  let instance_id := extract_instance_id actx.payload
  if instance_id = "" then ⟨pack_error_response "instance_id is required", [], st⟩ else
  ⟨[.tstr "payload", .tmap 1, .tstr "clients"] ++
     (match getServerInstance st instance_id with
      | some inst =>
        Tok.tarr inst.clients.length ::
          inst.clients.flatMap (fun c =>
            [.tmap 2, .tstr "id", .tstr c.id, .tstr "connected_at", .tstr c.connected_at])
      | none => [.tarr 0]) ++ [.tstr "error", .tnil], [], st⟩

/-- Embedding of `ServerListInstancesAction::handle` (server_actions.cpp
lines 483-518): needs a map payload but no instance id. -/
def serverListInstancesHandle (orc : StackOracle) (actx : ActionContextM) (st : BackendContextM) : HOut :=
  if !ensure_payload_map actx then ⟨pack_error_response "Missing payload", [], st⟩ else
  ⟨[.tstr "payload", .tmap 1, .tstr "instances", .tarr st.server_instances.length]
    ++ st.server_instances.flatMap (fun e =>
        [.tmap 4, .tstr "instance_id", .tstr e.1, .tstr "state",
         .tstr (if e.2.running then "RUNNING" else "STOPPED"),
         .tstr "port", .tint e.2.port, .tstr "ied_name", .tstr e.2.ied_name])
    ++ [.tstr "error", .tnil], [], st⟩

/-- Embedding of `ServerGetInterfacesAction::handle` (server_actions.cpp
lines 520-569). -/
def serverGetInterfacesHandle (orc : StackOracle) (actx : ActionContextM) (st : BackendContextM) : HOut :=
  if !ensure_payload_map actx then ⟨pack_error_response "Missing payload", [], st⟩ else
  ⟨[.tstr "payload", .tmap 2, .tstr "interfaces", .tarr orc.interfaces.length]
    ++ orc.interfaces.flatMap (fun i =>
        [.tmap 4, .tstr "name", .tstr i.name, .tstr "description", .tstr i.description,
         .tstr "is_up", .tbool i.is_up, .tstr "addresses", .tarr i.addresses.length]
        ++ i.addresses.map Tok.tstr)
    ++ [.tstr "current_interface"]
    ++ (if st.global_interface_name = "" then [Tok.tnil]
        else [.tmap 2, .tstr "name", .tstr st.global_interface_name,
              .tstr "prefix_len", .tint st.global_prefix_len])
    ++ [.tstr "error", .tnil], [], st⟩

/-- Embedding of `ServerSetInterfaceAction::handle` (server_actions.cpp
lines 571-612): needs a map payload but no instance id. -/
def serverSetInterfaceHandle (orc : StackOracle) (actx : ActionContextM) (st : BackendContextM) : HOut :=
  if !ensure_payload_map actx then ⟨pack_error_response "Missing payload", [], st⟩ else
  match find_key actx.payload "interface_name" with
  | none => ⟨pack_error_response "interface_name is required", [], st⟩
  | some ifaceObj =>
    let interface_name := as_string ifaceObj ""
    let prefixLen :=
      match find_key actx.payload "prefix_len" with
      | some pObj => as_int64 pObj 24
      | none => 24
    ⟨[.tstr "payload", .tmap 2, .tstr "interface_name", .tstr interface_name,
      .tstr "prefix_len", .tint prefixLen, .tstr "error", .tnil], [],
     { st with global_interface_name := interface_name, global_prefix_len := prefixLen }⟩

/-- Embedding of `ClientConnectAction::handle` (client_actions.cpp lines
157-230). Note this handler, like every client handler, checks the
instance id directly via `require_instance_id` and never calls
`ensure_payload_map`. -/
def clientConnectHandle (orc : StackOracle) (actx : ActionContextM) (st : BackendContextM) : HOut :=
  let instance_id := extract_instance_id actx.payload
  if instance_id = "" then ⟨pack_error_response "instance_id is required", [], st⟩ else
  match find_key actx.payload "host", find_key actx.payload "port" with
  | some hostObj, some portObj =>
    let host := as_string hostObj ""
    let port := as_int64 portObj 102
    let p := getOrCreateClientInstance st instance_id
    let st0 := p.1
    let inst0 := p.2
    let closeR :=
      if inst0.connection.isSome then
        (({ inst0 with connection := none } : ClientInstanceContextM),
         [Ev.connClose instance_id, Ev.connDestroy instance_id])
      else (inst0, ([] : List Ev))
    let inst1 := { closeR.1 with connection := some (), target_host := host, target_port := port }
    let connectEvs := closeR.2 ++ [Ev.connCreate instance_id, Ev.connConnect instance_id host port]
    if orc.connect_result.ok then
      ⟨[.tstr "payload", .tmap 2, .tstr "success", .tbool true,
        .tstr "instance_id", .tstr instance_id, .tstr "error", .tnil],
       connectEvs, setClientInstance st0 instance_id { inst1 with connected := true }⟩
    else
      ⟨[.tstr "payload", .tmap 0, .tstr "error"] ++ pack_error orc.connect_result.text,
       connectEvs, setClientInstance st0 instance_id { inst1 with connected := false }⟩
  | _, _ => ⟨pack_error_response "Invalid request", [], st⟩

/-- Embedding of `ClientDisconnectAction::handle` (client_actions.cpp lines
232-260). -/
def clientDisconnectHandle (orc : StackOracle) (actx : ActionContextM) (st : BackendContextM) : HOut :=
  let instance_id := extract_instance_id actx.payload
  if instance_id = "" then ⟨pack_error_response "instance_id is required", [], st⟩ else
  let r :=
    match getClientInstance st instance_id with
    | some inst =>
      if inst.connection.isSome then
        (removeClientInstance
           (setClientInstance st instance_id { inst with connection := none, connected := false })
           instance_id,
         [Ev.connClose instance_id, Ev.connDestroy instance_id])
      else (st, ([] : List Ev))
    | none => (st, [])
  ⟨[.tstr "payload"] ++ pack_success_payload ++ [.tstr "error", .tnil], r.2, r.1⟩

/-- The attributes map packed by `pack_model` for one data object. -/
def packBrowseAttrs (orc : StackOracle) (do_ref : String) : List Tok :=
  let r := orc.attr_list do_ref
  if !r.1.ok ∨ r.2 = none then [.tmap 0] else
  let attrs := r.2.getD []
  Tok.tmap attrs.length :: attrs.flatMap (fun a => [.tstr a, .tmap 1, .tstr "name", .tstr a])

/-- The data-objects map packed by `pack_model` for one logical node. -/
def packBrowseDOs (orc : StackOracle) (ln_ref : String) : List Tok :=
  let r := orc.var_list ln_ref
  if !r.1.ok ∨ r.2 = none then [.tmap 0] else
  let dos := r.2.getD []
  Tok.tmap dos.length :: dos.flatMap (fun d =>
    [.tstr d, .tmap 3, .tstr "cdc", .tstr "", .tstr "description", .tstr "", .tstr "attributes"]
      ++ packBrowseAttrs orc (ln_ref ++ "." ++ d))

/-- The logical-nodes map packed by `pack_model` for one logical device. -/
def packBrowseLNs (orc : StackOracle) (ld_name : String) : List Tok :=
  let r := orc.ln_list ld_name
  if !r.1.ok ∨ r.2 = none then [.tmap 0] else
  let lns := r.2.getD []
  Tok.tmap lns.length :: lns.flatMap (fun ln =>
    [.tstr ln, .tmap 3, .tstr "class", .tstr "", .tstr "description", .tstr "", .tstr "data_objects"]
      ++ packBrowseDOs orc (ld_name ++ "/" ++ ln))

/-- Embedding of the anonymous `pack_model` helper (client_actions.cpp
lines 17-125): a nested map built from the stack's directory enumeration,
with empty-string `cdc`/`description`/`class` placeholders, and an empty
map at any level whose enumeration fails. -/
def pack_model (orc : StackOracle) (ied_name : String) : List Tok :=
  [.tmap 2, .tstr "ied_name", .tstr ied_name, .tstr "logical_devices"] ++
    (let r := orc.ld_list
     if !r.1.ok ∨ r.2 = none then [.tmap 0] else
     let lds := r.2.getD []
     Tok.tmap lds.length :: lds.flatMap (fun ld =>
       [.tstr ld, .tmap 2, .tstr "description", .tstr "", .tstr "logical_nodes"]
         ++ packBrowseLNs orc ld))

/-- Embedding of `ClientBrowseAction::handle` (client_actions.cpp lines
262-295). -/
def clientBrowseHandle (orc : StackOracle) (actx : ActionContextM) (st : BackendContextM) : HOut :=
  let instance_id := extract_instance_id actx.payload
  if instance_id = "" then ⟨pack_error_response "instance_id is required", [], st⟩ else
  let instOpt := getClientInstance st instance_id
  let connection := match instOpt with | some i => i.connection | none => none
  let ied_name := match instOpt with | some i => i.ied_name | none => "IED"
  match connection with
  | none => ⟨pack_error_response "Client not connected", [], st⟩
  | some _ =>
    ⟨[.tstr "payload", .tmap 1, .tstr "model"] ++ pack_model orc ied_name
       ++ [.tstr "error", .tnil], [], st⟩

/-- The read-retry loop of `client.read` / `client.read_batch`: attempt the
functional constraints in order, keeping the last attempt's result, and
stop at the first attempt that returns OK with a non-null value. -/
def readLoop (ro : String → FC → IedClientResultM × Option MmsVal) (ref : String) :
    List FC → IedClientResultM × Option MmsVal → IedClientResultM × Option MmsVal
  | [], last => last
  | fc :: rest, _ =>
    let r := ro ref fc
    if r.1.ok && r.2.isSome then r else readLoop ro ref rest r

/-- The `value` token the client read handlers pack for a returned MMS
value, dispatching on `MmsValue_getType` (client_actions.cpp lines
341-354). -/
def packMmsValueToks (v : MmsVal) : List Tok :=
  match v with
  | .mBoolean _ => [.tbool (MmsValue_getBoolean v)]
  | .mInteger _ => [.tint (MmsValue_toInt64 v)]
  | .mUnsigned _ => [.tuint (MmsValue_toUint32 v)]
  | .mFloat _ => [.tfloat (MmsValue_toDouble v)]
  | .mVisibleString _ => [.tstr (MmsValue_toStringM v)]
  | .mString _ => [.tstr (MmsValue_toStringM v)]
  | .mOther => [.tnil]

/-- Embedding of `ClientReadAction::handle` (client_actions.cpp lines
297-380). -/
def clientReadHandle (orc : StackOracle) (actx : ActionContextM) (st : BackendContextM) : HOut :=
  let instance_id := extract_instance_id actx.payload
  if instance_id = "" then ⟨pack_error_response "instance_id is required", [], st⟩ else
  let connection := match getClientInstance st instance_id with | some i => i.connection | none => none
  match connection, find_key actx.payload "reference" with
  | some _, some refObj =>
    let reference := as_string refObj ""
    let res := readLoop orc.read_object reference [FC.st, FC.mx, FC.sp, FC.cf] (⟨true, "no error"⟩, none)
    let record :=
      match res.2 with
      | some v =>
        if res.1.ok then
          [.tmap 4, .tstr "value"] ++ packMmsValueToks v ++
            [.tstr "quality", .tint 0, .tstr "timestamp", .tnil, .tstr "error", .tnil]
        else
          [.tmap 4, .tstr "value", .tnil, .tstr "quality", .tint 0, .tstr "timestamp", .tnil,
           .tstr "error", .tstr res.1.text]
      | none =>
        [.tmap 4, .tstr "value", .tnil, .tstr "quality", .tint 0, .tstr "timestamp", .tnil,
         .tstr "error", .tstr res.1.text]
    ⟨[.tstr "payload", .tmap 1, .tstr "value"] ++ record ++ [.tstr "error", .tnil], [], st⟩
  | _, _ => ⟨pack_error_response "Invalid request", [], st⟩

/-- The per-reference key/record pair packed by `client.read_batch`
(client_actions.cpp lines 414-461); unlike the single read, the per-read
error field here is nil whenever the last error is OK, even with a null
value. -/
def readBatchEntry (orc : StackOracle) (refObj : MValue) : List Tok :=
  let reference := as_string refObj ""
  let res := readLoop orc.read_object reference [FC.st, FC.mx, FC.sp, FC.cf] (⟨true, "no error"⟩, none)
  Tok.tstr reference :: Tok.tmap 4 :: Tok.tstr "value" ::
    ((match res.2 with
      | some v => if res.1.ok then packMmsValueToks v else [Tok.tnil]
      | none => [Tok.tnil])
     ++ [.tstr "quality", .tint 0, .tstr "timestamp", .tnil, .tstr "error"]
     ++ (if res.1.ok then [Tok.tnil] else [Tok.tstr res.1.text]))

/-- Embedding of `ClientReadBatchAction::handle` (client_actions.cpp lines
382-466). -/
def clientReadBatchHandle (orc : StackOracle) (actx : ActionContextM) (st : BackendContextM) : HOut :=
  let instance_id := extract_instance_id actx.payload
  if instance_id = "" then ⟨pack_error_response "instance_id is required", [], st⟩ else
  let connection := match getClientInstance st instance_id with | some i => i.connection | none => none
  match connection, find_key actx.payload "references" with
  | some _, some (.arr refs) =>
    ⟨[.tstr "payload", .tmap 1, .tstr "values", .tmap refs.length]
      ++ refs.flatMap (readBatchEntry orc) ++ [.tstr "error", .tnil], [], st⟩
  | _, _ => ⟨pack_error_response "Invalid request", [], st⟩

/-- The write-retry loop of `client.write`: attempt functional constraints
in order, returning the success flag and the last attempt's error. -/
def writeLoop (wr : FC → IedClientResultM) :
    List FC → IedClientResultM → Bool × IedClientResultM
  | [], last => (false, last)
  | fc :: rest, _ =>
    let r := wr fc
    if r.ok then (true, r) else writeLoop wr rest r

/-- Embedding of `ClientWriteAction::handle` (client_actions.cpp lines
468-554): the payload's msgpack type selects the typed write, each kind
trying the FC order SP, CF, ST, MX. -/
def clientWriteHandle (orc : StackOracle) (actx : ActionContextM) (st : BackendContextM) : HOut :=
  let instance_id := extract_instance_id actx.payload
  if instance_id = "" then ⟨pack_error_response "instance_id is required", [], st⟩ else
  let connection := match getClientInstance st instance_id with | some i => i.connection | none => none
  match connection, find_key actx.payload "reference", find_key actx.payload "value" with
  | some _, some refObj, some valueObj =>
    let reference := as_string refObj ""
    let kind :=
      match valueObj with
      | .boolean _ => WriteKind.wBool
      | .float64 _ => WriteKind.wFloat
      | .str _ => WriteKind.wString
      | _ => WriteKind.wInt
    let wres := writeLoop (orc.write_result kind reference) [FC.sp, FC.cf, FC.st, FC.mx]
      ⟨true, "no error"⟩
    if wres.1 then
      ⟨[.tstr "payload", .tmap 1, .tstr "success", .tbool true, .tstr "error", .tnil], [], st⟩
    else
      ⟨[.tstr "payload", .tmap 1, .tstr "success", .tbool false, .tstr "error"]
         ++ pack_error wres.2.text, [], st⟩
  | _, _, _ => ⟨pack_error_response "Invalid request", [], st⟩

/-- Embedding of `ClientListInstancesAction::handle` (client_actions.cpp
lines 556-587): no payload requirement at all. -/
def clientListInstancesHandle (orc : StackOracle) (actx : ActionContextM) (st : BackendContextM) : HOut :=
  ⟨[.tstr "payload", .tmap 1, .tstr "instances", .tarr st.client_instances.length]
    ++ st.client_instances.flatMap (fun e =>
        [.tmap 4, .tstr "instance_id", .tstr e.1, .tstr "state",
         .tstr (if e.2.connected then "CONNECTED" else "DISCONNECTED"),
         .tstr "target_host", .tstr e.2.target_host, .tstr "target_port", .tint e.2.target_port])
    ++ [.tstr "error", .tnil], [], st⟩

/-- The type of an embedded action handler. -/
def HandlerFn : Type :=
  StackOracle → ActionContextM → BackendContextM → HOut

/-- The action registry built once at startup by `register_client_actions`
and `register_server_actions` (action_registry.cpp, client_actions.cpp,
server_actions.cpp): lookup by the literal handler names. -/
def registryFind (action : String) : Option HandlerFn :=
  if action = "client.connect" then some clientConnectHandle
  else if action = "client.disconnect" then some clientDisconnectHandle
  else if action = "client.browse" then some clientBrowseHandle
  else if action = "client.read" then some clientReadHandle
  else if action = "client.read_batch" then some clientReadBatchHandle
  else if action = "client.write" then some clientWriteHandle
  else if action = "client.list_instances" then some clientListInstancesHandle
  else if action = "server.start" then some serverStartHandle
  else if action = "server.stop" then some serverStopHandle
  else if action = "server.remove" then some serverRemoveHandle
  else if action = "server.load_model" then some serverLoadModelHandle
  else if action = "server.set_data_value" then some serverSetDataValueHandle
  else if action = "server.get_values" then some serverGetValuesHandle
  else if action = "server.get_clients" then some serverGetClientsHandle
  else if action = "server.list_instances" then some serverListInstancesHandle
  else if action = "server.get_interfaces" then some serverGetInterfacesHandle
  else if action = "server.set_interface" then some serverSetInterfaceHandle
  else none

/-- The envelope prefix the dispatcher packs before invoking a handler:
a four-entry map opened with `id` and `type` already written. -/
def respPrefix (id : String) : List Tok :=
  [.tmap 4, .tstr "id", .tstr id, .tstr "type", .tstr "response"]

/-- The complete envelope the dispatcher packs (and returns) on a decode
failure: all four keys with empty id. -/
def decodeErrorToks (msg : String) : List Tok :=
  respPrefix "" ++ [.tstr "payload", .tmap 0, .tstr "error"]
    ++ pack_error ("Decode error: " ++ msg)

/-- What one `handle_action` call produces: `response_bytes` is the string
the function returns (what the transport writes back), `buffer` the
contents of the local `msgpack::sbuffer` it packed into; the two differ
exactly where the source forgets `response_bytes.assign`. -/
structure HandleOut where
  response_bytes : List Tok
  buffer : List Tok
  evs : List Ev
  ctx : BackendContextM

/-- Embedding of `ipc::actions::handle_action` (action.cpp lines 69-114).
In the unknown-action branch the source packs the full envelope into the
buffer but returns the local `response_bytes` string without ever
assigning it, so the returned bytes are empty there. -/
def handle_action (orc : StackOracle) (unpacked : Except String MValue) (st : BackendContextM) :
    HandleOut :=
  match decode_request unpacked with
  | .error e =>
    { response_bytes := decodeErrorToks e, buffer := decodeErrorToks e, evs := [], ctx := st }
  | .ok req =>
    let pre := respPrefix req.id
    match registryFind req.action with
    | none =>
      { response_bytes := [], buffer := pre ++ pack_error_response "Unknown action",
        evs := [], ctx := st }
    | some h =>
      let out := h orc ⟨req.action, req.payload, req.has_payload⟩ st
      { response_bytes := pre ++ out.toks, buffer := pre ++ out.toks,
        evs := out.evs, ctx := out.ctx }

/-- The ten server action handlers, in registration order
(server_actions.cpp `register_server_actions` plus the load-model
handler). -/
def serverHandlerList : List HandlerFn :=
  [serverStartHandle, serverStopHandle, serverRemoveHandle, serverLoadModelHandle,
   serverSetDataValueHandle, serverGetValuesHandle, serverGetClientsHandle,
   serverListInstancesHandle, serverGetInterfacesHandle, serverSetInterfaceHandle]

/-- The server handlers that require an `instance_id` — all of them except
`list_instances`, `get_interfaces` and `set_interface`. -/
def serverIdHandlerList : List HandlerFn :=
  [serverStartHandle, serverStopHandle, serverRemoveHandle, serverLoadModelHandle,
   serverSetDataValueHandle, serverGetValuesHandle, serverGetClientsHandle]

/-- The client handlers that require an `instance_id` (all except
`client.list_instances`). -/
def clientIdHandlerList : List HandlerFn :=
  [clientConnectHandle, clientDisconnectHandle, clientBrowseHandle, clientReadHandle,
   clientReadBatchHandle, clientWriteHandle]

/-- Spec-side description of the read FC order: ST, MX, SP, CF. -/
def fcReadOrder : List FC := [FC.st, FC.mx, FC.sp, FC.cf]

/-- Spec-side description of "tries the FC order ST, MX, SP, CF, returning
on the first success": the first constraint whose read returns OK with a
value. -/
def specFirstSuccessFC (ro : String → FC → IedClientResultM × Option MmsVal)
    (ref : String) : Option FC :=
  fcReadOrder.find? (fun fc => (ro ref fc).1.ok && (ro ref fc).2.isSome)

/-- Spec-side description of the read outcome: the first successful
attempt, or — when every constraint fails — the last attempt (CF). -/
def specReadResult (ro : String → FC → IedClientResultM × Option MmsVal)
    (ref : String) : IedClientResultM × Option MmsVal :=
  match specFirstSuccessFC ro ref with
  | some fc => ro ref fc
  | none => ro ref FC.cf

/-- Spec-side coercion table for a returned MMS value: boolean to boolean,
integer to int64, unsigned to uint32, float to double, visible/mms string
to string, anything else to nil. -/
def specCoerceMms : MmsVal → List Tok
  | .mBoolean b => [.tbool b]
  | .mInteger i => [.tint i]
  | .mUnsigned n => [.tuint (n % 2 ^ 32)]
  | .mFloat q => [.tfloat q]
  | .mVisibleString s => [.tstr s]
  | .mString s => [.tstr s]
  | .mOther => [.tnil]

/-- The per-read record packed when the read failed: null value, the
placeholders, and the stack's error string inside the record. -/
def readFailureRecord (e : IedClientResultM) : List Tok :=
  [.tmap 4, .tstr "value", .tnil, .tstr "quality", .tint 0, .tstr "timestamp", .tnil,
   .tstr "error", .tstr e.text]

/-- The per-read record packed when the read succeeded with value `v`. -/
def readSuccessRecord (v : MmsVal) : List Tok :=
  [.tmap 4, .tstr "value"] ++ specCoerceMms v ++
    [.tstr "quality", .tint 0, .tstr "timestamp", .tnil, .tstr "error", .tnil]

/-- Spec-side per-reference entry of `server.get_values`: the reference
string as key, then the attribute record for a data attribute and the
all-null record otherwise. -/
def specValuesEntry (mdl : IedModelM) (refObj : MValue) : List Tok :=
  Tok.tstr (as_string refObj "") ::
    (match resolveRef mdl (as_string refObj "") with
     | some (.dataAttribute ty cur) => attrValueRecord ty cur
     | _ => nullValueRecord)

/-- The spec's literal unknown-action request
`id r1, type request, action server.whatever, payload empty map`. -/
def c1UnknownActionRequest : MValue :=
  .map [(.str "id", .str "r1"), (.str "type", .str "request"),
        (.str "action", .str "server.whatever"), (.str "payload", .map [])]

/-- A fully-populated running server instance used to exercise the removal
order: owns model, config and server, is running, has one tracked client,
and carries a configured IP alias. -/
def c3inst : ServerInstanceContextM :=
  { instance_id := "a", ied_name := "IED_A", ip_address := "10.0.0.5",
    model := some [], server := some (), config := some (),
    clients := [⟨"c1", "2026-01-01T00:00:00Z"⟩], port := 102,
    running := true, ip_configured := true }

/-- A registry holding `c3inst` with a configured global interface. -/
def c3st : BackendContextM :=
  { server_instances := [("a", c3inst)], global_interface_name := "eth0" }

/-- The `server.remove` context addressing instance `a`. -/
def c3actx : ActionContextM :=
  ⟨"server.remove", .map [(.str "instance_id", .str "a")], true⟩

/-- A minimal model payload: a name and no logical devices. -/
def c4MinimalModel : MValue :=
  .map [(.str "name", .str "IED_A"), (.str "logical_devices", .map [])]

/-- A `server.load_model` request for instance `a`. -/
def c4LoadRequest : MValue :=
  .map [(.str "id", .str "r1"), (.str "action", .str "server.load_model"),
        (.str "payload", .map [(.str "instance_id", .str "a"), (.str "model", c4MinimalModel)])]

/-- A `server.start` request for instance `a`. -/
def c4StartRequest : MValue :=
  .map [(.str "id", .str "r2"), (.str "action", .str "server.start"),
        (.str "payload", .map [(.str "instance_id", .str "a")])]

/-- A one-attribute model: one boolean data attribute under the reference
`PROT/XCBR1.Pos.stVal`, plus one non-attribute node. -/
def c8Model : IedModelM :=
  [("PROT/XCBR1.Pos.stVal", .dataAttribute .boolean (.boolV true)),
   ("PROT/XCBR1.Pos", .otherNode)]

/-- A valid (server and model present) instance `g` whose model is
`c8Model`. -/
def c8inst : ServerInstanceContextM :=
  { instance_id := "g", model := some c8Model, server := some (), config := some () }

/-- A registry holding `c8inst` under the key `g`. -/
def c8st : BackendContextM :=
  { server_instances := [("g", c8inst)] }

/-- A `server.get_values` context asking for one attribute, one
non-attribute node and one unknown reference. -/
def c8actx : ActionContextM :=
  ⟨"server.get_values",
   .map [(.str "instance_id", .str "g"),
         (.str "references", .arr [.str "PROT/XCBR1.Pos.stVal", .str "PROT/XCBR1.Pos",
                                   .str "NO/SUCH.ref"])], true⟩

/-- A `server.get_values` context with an empty references array. -/
def c8actxEmpty : ActionContextM :=
  ⟨"server.get_values",
   .map [(.str "instance_id", .str "g"), (.str "references", .arr [])], true⟩

/-- A read oracle whose ST read fails and whose MX read succeeds with an
unsigned value. -/
def c9oracle : StackOracle :=
  { read_object := fun _ fc =>
      match fc with
      | .st => (⟨false, "object not found"⟩, none)
      | .mx => (⟨true, "no error"⟩, some (.mUnsigned 7))
      | _ => (⟨true, "no error"⟩, some (.mBoolean true)) }

/-- A registry holding one connected client instance `c`. -/
def c9st : BackendContextM :=
  { client_instances := [("c", { instance_id := "c", connection := some (), connected := true })] }

/-- A `client.read` context for instance `c` and one reference. -/
def c9actx : ActionContextM :=
  ⟨"client.read",
   .map [(.str "instance_id", .str "c"), (.str "reference", .str "LD/LN.DO.da")], true⟩

theorem should_configure_ip_eq_false {ip : String}
    (hip : ip = "0.0.0.0" ∨ ip.take 4 = "127.") : should_configure_ip ip = false := by
  unfold should_configure_ip
  rcases hip with h | h <;> simp [h]

theorem find_key_eq_none_of_not_map {v : MValue} (k : String)
    (h : mvalueIsMap v = false) : find_key v k = none := by
  cases v <;> first | rfl | simp [mvalueIsMap] at h

theorem extract_instance_id_of_not_map {v : MValue}
    (h : mvalueIsMap v = false) : extract_instance_id v = "" := by
  unfold extract_instance_id
  rw [find_key_eq_none_of_not_map "instance_id" h]

theorem ensure_payload_map_eq_false {actx : ActionContextM}
    (h : actx.has_payload = false ∨ mvalueIsMap actx.payload = false) :
    ensure_payload_map actx = false := by
  unfold ensure_payload_map
  rcases h with h | h <;> simp [h]

/-- C1 (code bug): on the spec's literal unknown-action request the
dispatcher packs the complete four-key envelope
`id r1 / type response / payload empty / error Unknown action` into its
buffer, but the string it actually returns is empty: the source forgets
`response_bytes.assign` in the unknown-action branch, so no envelope
reaches the client. The registry is untouched. -/
theorem c1_unknown_action_returns_empty_bytes :
    (handle_action {} (.ok c1UnknownActionRequest) {}).response_bytes = []
    ∧ (handle_action {} (.ok c1UnknownActionRequest) {}).buffer
      = [.tmap 4, .tstr "id", .tstr "r1", .tstr "type", .tstr "response",
         .tstr "payload", .tmap 0, .tstr "error", .tmap 1, .tstr "message", .tstr "Unknown action"]
    ∧ (handle_action {} (.ok c1UnknownActionRequest) {}).ctx = ({} : BackendContextM) :=
  ⟨rfl, rfl, rfl⟩

/-- C2 counterexample: the bytes decoding to the msgpack integer 5 — valid
MessagePack whose outer value is not a map — do NOT make `decode_request`
fail; it returns a request with empty id and action and no payload,
refuting the claim that a non-map outer value yields a decode error. -/
theorem c2_counterexample_nonmap_root_decodes :
    decode_request (.ok (.pos 5))
      = .ok { id := "", action := "", payload := .nil, has_payload := false } := rfl

/-- C2 amended: `decode_request` fails exactly when the byte sequence is
not valid MessagePack (the unpack error passes through); for every decoded
outer value — map or not — it returns a request whose id and action
default to the empty string when the key is missing (and, through
`as_string`, when its value is not a string), and whose `has_payload` is
false iff the `payload` key is absent. -/
theorem c2_amended_decode_contract (u : Except String MValue) :
    (∀ e, u = .error e → decode_request u = .error e)
    ∧ (∀ root, u = .ok root →
        ∃ req, decode_request u = .ok req
          ∧ (find_key root "id" = none → req.id = "")
          ∧ (∀ v, find_key root "id" = some v → req.id = as_string v "")
          ∧ (find_key root "action" = none → req.action = "")
          ∧ (∀ v, find_key root "action" = some v → req.action = as_string v "")
          ∧ (req.has_payload = false ↔ find_key root "payload" = none)
          ∧ (∀ v, find_key root "payload" = some v → req.payload = v ∧ req.has_payload = true)) := by
  constructor
  · rintro e rfl
    rfl
  · rintro root rfl
    refine ⟨decodedRequest root, rfl, ?_, ?_, ?_, ?_, ?_, ?_⟩ <;>
      rcases h1 : find_key root "id" with _ | v1 <;>
        rcases h2 : find_key root "action" with _ | v2 <;>
          rcases h3 : find_key root "payload" with _ | v3 <;>
            simp [decodedRequest, h1, h2, h3]

/-- C2 amended witness: applying the contract to a concrete map with only
an id key. -/
theorem c2_amended_decode_contract_witness :
    ∃ req, decode_request (.ok (.map [(.str "id", .str "r7")])) = .ok req
      ∧ req.id = "r7" ∧ req.action = "" ∧ req.has_payload = false := by
  obtain ⟨req, hok, hidn, hids, hactn, hacts, hpay, hpays⟩ :=
    (c2_amended_decode_contract (.ok (.map [(.str "id", .str "r7")]))).2 _ rfl
  refine ⟨req, hok, ?_, ?_, ?_⟩
  · have := hids (.str "r7") (by rfl)
    simpa [as_string] using this
  · exact hactn (by rfl)
  · exact hpay.mpr (by rfl)

/-- C3 counterexample: on a fully-populated running instance with a
configured alias, `server.remove` removes the IP alias FIRST (the three
netlink operations precede everything), then stops and destroys the
server, destroys config and model, clears the client list and erases the
instance — not the claimed order that removes the alias after clearing
the client list. -/
theorem c3_counterexample_alias_removed_first :
    (serverRemoveHandle {} c3actx c3st).evs
      = [Ev.nlOpenSocket, Ev.nlGetIfIndex "eth0", Ev.nlAddrDelete "eth0" "10.0.0.5" 24,
         Ev.iedStop "a", Ev.iedDestroy "a", Ev.configDestroy "a", Ev.modelDestroy "a",
         Ev.clearClients "a", Ev.eraseInstance "a"]
    ∧ (serverRemoveHandle {} c3actx c3st).evs
      ≠ [Ev.iedStop "a", Ev.iedDestroy "a", Ev.configDestroy "a", Ev.modelDestroy "a",
         Ev.clearClients "a", Ev.nlOpenSocket, Ev.nlGetIfIndex "eth0",
         Ev.nlAddrDelete "eth0" "10.0.0.5" 24, Ev.eraseInstance "a"] :=
  ⟨rfl, by decide⟩

theorem assocLookup_assocRemove_self (l : List (String × α)) (key : String) :
    assocLookup (assocRemove l key) key = none := by
  induction l with
  | nil => rfl
  | cons e rest ih =>
    by_cases h : e.1 = key
    · simp [assocRemove, h, ih]
    · simp [assocRemove, assocLookup, h, ih]

/-- C3 amended: on `server.remove` of an existing instance the release
order is: remove the IP alias FIRST (when `ip_configured` and a global
interface is set), then stop the server (if running), destroy the server,
destroy the config, destroy the model, clear the client list, and only
then erase the instance from the registry map — after which the instance
is gone. -/
theorem c3_amended_remove_release_order (orc : StackOracle) (st : BackendContextM)
    (iid : String) (inst : ServerInstanceContextM)
    (hiid : iid ≠ "") (hinst : getServerInstance st iid = some inst) :
    (serverRemoveHandle orc ⟨"server.remove", .map [(.str "instance_id", .str iid)], true⟩ st).evs
      = (if inst.ip_configured ∧ st.global_interface_name ≠ "" then
           (remove_ip_address orc.nl st.global_interface_name inst.ip_address
              st.global_prefix_len).2
         else [])
        ++ ((if inst.server.isSome then
               (if inst.running then [Ev.iedStop iid] else []) ++ [Ev.iedDestroy iid]
             else [])
          ++ ((if inst.config.isSome then [Ev.configDestroy iid] else [])
            ++ ((if inst.model.isSome then [Ev.modelDestroy iid] else [])
              ++ [Ev.clearClients iid, Ev.eraseInstance iid])))
    ∧ getServerInstance
        (serverRemoveHandle orc
          ⟨"server.remove", .map [(.str "instance_id", .str iid)], true⟩ st).ctx iid = none := by
  have hx : extract_instance_id (.map [(.str "instance_id", .str iid)]) = iid := by
    simp [extract_instance_id, find_key, findKeyEntries, as_string, hiid]
  have hinst2 : assocLookup st.server_instances iid = some inst := hinst
  by_cases h1 : inst.ip_configured ∧ st.global_interface_name ≠ "" <;>
    by_cases h2 : inst.server.isSome <;>
      by_cases h3 : inst.config.isSome <;>
        by_cases h4 : inst.running <;>
          by_cases h5 : inst.model.isSome <;>
            refine ⟨?_, ?_⟩ <;>
              simp [serverRemoveHandle, ensure_payload_map, mvalueIsMap, hx, hiid, hinst, hinst2,
                    h1, h2, h3, h4, h5, assocLookup_assocRemove_self, removeServerInstance,
                    setServerInstance, getServerInstance]

/-- C3 amended witness at the concrete populated instance. -/
theorem c3_amended_remove_release_order_witness :
    (("a" : String) ≠ "")
    ∧ getServerInstance c3st "a" = some c3inst
    ∧ ((serverRemoveHandle {} ⟨"server.remove", .map [(.str "instance_id", .str "a")], true⟩
          c3st).evs
        = (if c3inst.ip_configured ∧ c3st.global_interface_name ≠ "" then
             (remove_ip_address ({} : StackOracle).nl c3st.global_interface_name
                c3inst.ip_address c3st.global_prefix_len).2
           else [])
          ++ ((if c3inst.server.isSome then
                 (if c3inst.running then [Ev.iedStop "a"] else []) ++ [Ev.iedDestroy "a"]
               else [])
            ++ ((if c3inst.config.isSome then [Ev.configDestroy "a"] else [])
              ++ ((if c3inst.model.isSome then [Ev.modelDestroy "a"] else [])
                ++ [Ev.clearClients "a", Ev.eraseInstance "a"])))
       ∧ getServerInstance
           (serverRemoveHandle {}
             ⟨"server.remove", .map [(.str "instance_id", .str "a")], true⟩ c3st).ctx "a" = none) :=
  ⟨by decide, rfl, c3_amended_remove_release_order {} c3st "a" c3inst (by decide) rfl⟩

/-- C4 (code bug): running `server.load_model` on instance `a`, then
`server.start` (stack reports running), then `server.load_model` again —
which stops and destroys the old server — leaves the instance with
`running = true` while `server` is gone, violating the invariant that the
server must exist whenever `running` is true; the claim's "running is
false" after a reload of a running instance does not hold because the
handler never clears the flag. -/
theorem c4_load_model_leaves_stale_running :
    (getServerInstance
        (handle_action {} (.ok c4StartRequest)
          (handle_action {} (.ok c4LoadRequest) ({} : BackendContextM)).ctx).ctx "a").map
      (fun i => (i.running, i.server.isSome)) = some (true, true)
    ∧ ∃ inst,
        getServerInstance
          (handle_action {} (.ok c4LoadRequest)
            (handle_action {} (.ok c4StartRequest)
              (handle_action {} (.ok c4LoadRequest) ({} : BackendContextM)).ctx).ctx).ctx "a"
          = some inst
        ∧ inst.running = true ∧ inst.server = none ∧ inst.model.isSome = true :=
  ⟨rfl, ⟨_, rfl, rfl, rfl, rfl⟩⟩

/-- C5 counterexample: `client.connect` invoked with no payload does not
emit "Missing payload" — it never calls `ensure_payload_map` and instead
answers "instance_id is required", refuting the claim for client
handlers. -/
theorem c5_counterexample_client_connect_missing_payload :
    (clientConnectHandle {} ⟨"client.connect", .nil, false⟩ ({} : BackendContextM)).toks
      = pack_error_response "instance_id is required"
    ∧ (clientConnectHandle {} ⟨"client.connect", .nil, false⟩ ({} : BackendContextM)).toks
      ≠ pack_error_response "Missing payload" :=
  ⟨rfl, by decide⟩

/-- C5 amended: the payload guard is a server-handler discipline — every
server action handler with a missing or non-map payload answers
"Missing payload" via `ensure_payload_map` and changes no state — while
the client handlers never call `ensure_payload_map`: with a non-map
payload (which a missing payload decodes to) every instance-id-requiring
client handler answers "instance_id is required" and changes no state. -/
theorem c5_amended_missing_payload_behaviour (orc : StackOracle) (actx : ActionContextM)
    (st : BackendContextM) :
    ((actx.has_payload = false ∨ mvalueIsMap actx.payload = false) →
      ∀ h ∈ serverHandlerList,
        (h orc actx st).toks = pack_error_response "Missing payload"
        ∧ (h orc actx st).ctx = st ∧ (h orc actx st).evs = [])
    ∧ (mvalueIsMap actx.payload = false →
      ∀ h ∈ clientIdHandlerList,
        (h orc actx st).toks = pack_error_response "instance_id is required"
        ∧ (h orc actx st).ctx = st ∧ (h orc actx st).evs = []) := by
  constructor
  · intro hp h hmem
    have he : ensure_payload_map actx = false := ensure_payload_map_eq_false hp
    simp only [serverHandlerList, List.mem_cons, List.not_mem_nil, or_false] at hmem
    rcases hmem with rfl | rfl | rfl | rfl | rfl | rfl | rfl | rfl | rfl | rfl <;>
      simp [serverStartHandle, serverStopHandle, serverRemoveHandle, serverLoadModelHandle,
            serverSetDataValueHandle, serverGetValuesHandle, serverGetClientsHandle,
            serverListInstancesHandle, serverGetInterfacesHandle, serverSetInterfaceHandle, he]
  · intro hm h hmem
    have hx : extract_instance_id actx.payload = "" := extract_instance_id_of_not_map hm
    simp only [clientIdHandlerList, List.mem_cons, List.not_mem_nil, or_false] at hmem
    rcases hmem with rfl | rfl | rfl | rfl | rfl | rfl <;>
      simp [clientConnectHandle, clientDisconnectHandle, clientBrowseHandle, clientReadHandle,
            clientReadBatchHandle, clientWriteHandle, hx]

/-- C5 amended witness: `server.start` with no payload answers "Missing
payload" and leaves the registry alone; `client.read` with no payload
answers "instance_id is required". -/
theorem c5_amended_missing_payload_behaviour_witness :
    ((⟨"server.start", .nil, false⟩ : ActionContextM).has_payload = false
       ∨ mvalueIsMap (⟨"server.start", .nil, false⟩ : ActionContextM).payload = false)
    ∧ ((serverStartHandle {} ⟨"server.start", .nil, false⟩ ({} : BackendContextM)).toks
         = pack_error_response "Missing payload"
       ∧ (serverStartHandle {} ⟨"server.start", .nil, false⟩ ({} : BackendContextM)).ctx
           = ({} : BackendContextM)
       ∧ (serverStartHandle {} ⟨"server.start", .nil, false⟩ ({} : BackendContextM)).evs = [])
    ∧ ((clientReadHandle {} ⟨"client.read", .nil, false⟩ ({} : BackendContextM)).toks
         = pack_error_response "instance_id is required"
       ∧ (clientReadHandle {} ⟨"client.read", .nil, false⟩ ({} : BackendContextM)).ctx
           = ({} : BackendContextM)
       ∧ (clientReadHandle {} ⟨"client.read", .nil, false⟩ ({} : BackendContextM)).evs = []) := by
  refine ⟨Or.inl rfl, ?_, ?_⟩
  · exact (c5_amended_missing_payload_behaviour {} ⟨"server.start", .nil, false⟩ {}).1
      (Or.inl rfl) serverStartHandle (by simp [serverHandlerList])
  · exact (c5_amended_missing_payload_behaviour {} ⟨"client.read", .nil, false⟩ {}).2
      rfl clientReadHandle (by simp [clientIdHandlerList])

theorem extract_instance_id_eq_empty {payload : MValue}
    (hid : find_key payload "instance_id" = none
         ∨ find_key payload "instance_id" = some (.str "")
         ∨ ∃ v, find_key payload "instance_id" = some v ∧ ∀ s, v ≠ MValue.str s) :
    extract_instance_id payload = "" := by
  unfold extract_instance_id
  rcases hid with h | h | ⟨v, h, hv⟩
  · rw [h]
  · rw [h]; rfl
  · rw [h]
    cases v <;> first | rfl | exact absurd rfl (hv _)

/-- C7: every server action that requires an instance id (all of them
except `list_instances`, `get_interfaces` and `set_interface`), given a
map payload whose `instance_id` is absent, the empty string, or not a
string, answers exactly `instance_id is required` and leaves the whole
registry untouched — no instance created, removed or mutated, and no
external effect. -/
theorem c7_server_actions_require_instance_id (orc : StackOracle) (actx : ActionContextM)
    (st : BackendContextM) (hp : actx.has_payload = true) (hm : mvalueIsMap actx.payload = true)
    (hid : find_key actx.payload "instance_id" = none
         ∨ find_key actx.payload "instance_id" = some (.str "")
         ∨ ∃ v, find_key actx.payload "instance_id" = some v ∧ ∀ s, v ≠ MValue.str s) :
    ∀ h ∈ serverIdHandlerList,
      (h orc actx st).toks = pack_error_response "instance_id is required"
      ∧ (h orc actx st).ctx = st ∧ (h orc actx st).evs = [] := by
  intro h hmem
  have he : ensure_payload_map actx = true := by
    unfold ensure_payload_map
    simp [hp, hm]
  have hx : extract_instance_id actx.payload = "" := extract_instance_id_eq_empty hid
  simp only [serverIdHandlerList, List.mem_cons, List.not_mem_nil, or_false] at hmem
  rcases hmem with rfl | rfl | rfl | rfl | rfl | rfl | rfl <;>
    simp [serverStartHandle, serverStopHandle, serverRemoveHandle, serverLoadModelHandle,
          serverSetDataValueHandle, serverGetValuesHandle, serverGetClientsHandle, he, hx]

/-- C7 witness: `server.start` with a map payload that has no
`instance_id` key. -/
theorem c7_server_actions_require_instance_id_witness :
    (⟨"server.start", .map [(.str "k", .pos 1)], true⟩ : ActionContextM).has_payload = true
    ∧ find_key (MValue.map [(.str "k", .pos 1)]) "instance_id" = none
    ∧ ((serverStartHandle {} ⟨"server.start", .map [(.str "k", .pos 1)], true⟩
          ({} : BackendContextM)).toks = pack_error_response "instance_id is required"
       ∧ (serverStartHandle {} ⟨"server.start", .map [(.str "k", .pos 1)], true⟩
            ({} : BackendContextM)).ctx = ({} : BackendContextM)
       ∧ (serverStartHandle {} ⟨"server.start", .map [(.str "k", .pos 1)], true⟩
            ({} : BackendContextM)).evs = []) :=
  ⟨rfl, rfl,
   c7_server_actions_require_instance_id {} ⟨"server.start", .map [(.str "k", .pos 1)], true⟩
     {} rfl rfl (Or.inl rfl) serverStartHandle (by simp [serverIdHandlerList])⟩

/-- C6 counterexample: `add_ip_address` applies no wildcard guard — called
with `0.0.0.0` it opens a netlink session, resolves the interface and
submits the add (three netlink operations, refuting "without performing
any netlink operation"), and when the kernel rejects the add (-22) it even
returns false instead of the claimed true. -/
theorem c6_counterexample_add_wildcard_performs_netlink :
    (add_ip_address {} "eth0" "0.0.0.0" 24 "eth0:iec1").2
      = [Ev.nlOpenSocket, Ev.nlGetIfIndex "eth0", Ev.nlAddrAdd "eth0" "0.0.0.0" 24 "eth0:iec1"]
    ∧ (add_ip_address { add_ret := -22 } "eth0" "0.0.0.0" 24 "eth0:iec1")
      = (false, [Ev.nlOpenSocket, Ev.nlGetIfIndex "eth0",
                 Ev.nlAddrAdd "eth0" "0.0.0.0" 24 "eth0:iec1"]) :=
  ⟨rfl, rfl⟩

/-- C6 amended: the wildcard/loopback guard lives in
`should_configure_ip`, which is false exactly for these addresses;
`server.start` checks it (together with a configured global interface)
before ever calling `add_ip_address`, so no netlink operation is attempted
for such an address — while `add_ip_address` itself starts with a netlink
session open on every input. -/
theorem c6_amended_wildcard_guard_at_call_site (o : NlOracle) (giface : String) (gplen : Int)
    (iid ip : String) (hip : ip = "0.0.0.0" ∨ ip.take 4 = "127.") :
    should_configure_ip ip = false
    ∧ startConfigureIpBlock o giface gplen iid ip = (false, [])
    ∧ (add_ip_address o giface ip gplen (giface ++ ":iec" ++ iid)).2.head? = some Ev.nlOpenSocket := by
  have h := should_configure_ip_eq_false hip
  refine ⟨h, ?_, ?_⟩
  · unfold startConfigureIpBlock
    simp [h]
  · unfold add_ip_address
    split_ifs <;> rfl

/-- C6 amended witness at the wildcard address. -/
theorem c6_amended_wildcard_guard_at_call_site_witness :
    (("0.0.0.0" : String) = "0.0.0.0" ∨ ("0.0.0.0" : String).take 4 = "127.")
    ∧ (should_configure_ip "0.0.0.0" = false
       ∧ startConfigureIpBlock {} "eth0" 24 "b" "0.0.0.0" = (false, [])
       ∧ (add_ip_address {} "eth0" "0.0.0.0" 24 ("eth0" ++ ":iec" ++ "b")).2.head?
           = some Ev.nlOpenSocket) :=
  ⟨Or.inl rfl, c6_amended_wildcard_guard_at_call_site {} "eth0" 24 "b" "0.0.0.0" (Or.inl rfl)⟩

theorem getValuesEntry_eq_spec (mdl : IedModelM) (r : MValue) :
    getValuesEntry mdl r = specValuesEntry mdl r := by
  unfold getValuesEntry specValuesEntry pack_attribute_value
  rcases h : resolveRef mdl (as_string r "") with _ | node
  · simp [h]
  · cases node <;> simp [h]

/-- C8: for `server.get_values` on a valid instance (server and model
present) with a references array, the `values` map has exactly one entry
per requested reference, in request order, keyed by the reference string;
a data-attribute reference packs its current value with quality 0 and nil
timestamp, any other reference packs the all-null record; the outer error
is nil, no state changes, and an empty references array yields an empty
values map. -/
theorem c8_get_values_per_reference (orc : StackOracle) (actx : ActionContextM)
    (st : BackendContextM) (iid : String) (inst : ServerInstanceContextM) (mdl : IedModelM)
    (refs : List MValue)
    (hp : actx.has_payload = true) (hm : mvalueIsMap actx.payload = true)
    (hidk : find_key actx.payload "instance_id" = some (.str iid)) (hne : iid ≠ "")
    (hrefs : find_key actx.payload "references" = some (.arr refs))
    (hinst : getServerInstance st iid = some inst)
    (hsrv : inst.server = some ()) (hmdl : inst.model = some mdl) :
    (serverGetValuesHandle orc actx st).toks
      = [.tstr "payload", .tmap 1, .tstr "values", .tmap refs.length]
        ++ refs.flatMap (specValuesEntry mdl) ++ [.tstr "error", .tnil]
    ∧ (serverGetValuesHandle orc actx st).ctx = st
    ∧ (serverGetValuesHandle orc actx st).evs = []
    ∧ (refs = [] →
        (serverGetValuesHandle orc actx st).toks
          = [.tstr "payload", .tmap 1, .tstr "values", .tmap 0, .tstr "error", .tnil]) := by
  have hx : extract_instance_id actx.payload = iid := by
    simp [extract_instance_id, hidk, as_string, hne]
  have he : ensure_payload_map actx = true := by
    unfold ensure_payload_map
    simp [hp, hm]
  have hfn : getValuesEntry mdl = specValuesEntry mdl := funext (getValuesEntry_eq_spec mdl)
  refine ⟨?_, ?_, ?_, ?_⟩
  · simp [serverGetValuesHandle, he, hx, hne, hinst, hrefs, hsrv, hmdl, hfn]
  · simp [serverGetValuesHandle, he, hx, hne, hinst, hrefs, hsrv, hmdl]
  · simp [serverGetValuesHandle, he, hx, hne, hinst, hrefs, hsrv, hmdl]
  · intro hnil
    subst hnil
    simp [serverGetValuesHandle, he, hx, hne, hinst, hrefs, hsrv, hmdl]

/-- C8 witness: the three-reference request on the concrete model (one
attribute, one other node, one unknown), plus the empty-array case. -/
theorem c8_get_values_per_reference_witness :
    find_key c8actx.payload "instance_id" = some (.str "g")
    ∧ find_key c8actx.payload "references"
        = some (.arr [.str "PROT/XCBR1.Pos.stVal", .str "PROT/XCBR1.Pos", .str "NO/SUCH.ref"])
    ∧ getServerInstance c8st "g" = some c8inst
    ∧ (serverGetValuesHandle {} c8actx c8st).toks
        = [.tstr "payload", .tmap 1, .tstr "values", .tmap 3]
          ++ ([MValue.str "PROT/XCBR1.Pos.stVal", .str "PROT/XCBR1.Pos",
               .str "NO/SUCH.ref"].flatMap (specValuesEntry c8Model))
          ++ [.tstr "error", .tnil]
    ∧ (serverGetValuesHandle {} c8actxEmpty c8st).toks
        = [.tstr "payload", .tmap 1, .tstr "values", .tmap 0, .tstr "error", .tnil] := by
  refine ⟨rfl, rfl, rfl, ?_, ?_⟩
  · exact (c8_get_values_per_reference {} c8actx c8st "g" c8inst c8Model
      [.str "PROT/XCBR1.Pos.stVal", .str "PROT/XCBR1.Pos", .str "NO/SUCH.ref"]
      rfl rfl rfl (by decide) rfl rfl rfl rfl).1
  · exact (c8_get_values_per_reference {} c8actxEmpty c8st "g" c8inst c8Model []
      rfl rfl rfl (by decide) rfl rfl rfl rfl).2.2.2 rfl

theorem packMmsValueToks_eq_spec (v : MmsVal) : packMmsValueToks v = specCoerceMms v := by
  cases v <;> rfl

theorem readLoop_eq_specReadResult (ro : String → FC → IedClientResultM × Option MmsVal)
    (ref : String) (init : IedClientResultM × Option MmsVal) :
    readLoop ro ref fcReadOrder init = specReadResult ro ref := by
  by_cases h1 : ((ro ref FC.st).1.ok && (ro ref FC.st).2.isSome) = true <;>
    by_cases h2 : ((ro ref FC.mx).1.ok && (ro ref FC.mx).2.isSome) = true <;>
      by_cases h3 : ((ro ref FC.sp).1.ok && (ro ref FC.sp).2.isSome) = true <;>
        by_cases h4 : ((ro ref FC.cf).1.ok && (ro ref FC.cf).2.isSome) = true <;>
          simp [readLoop, fcReadOrder, specReadResult, specFirstSuccessFC, List.find?,
                h1, h2, h3, h4]

/-- C9: `client.read` on a connected instance with a reference present
attempts the stack read with functional constraints in the order
ST, MX, SP, CF stopping at the first success; the returned MMS value is
coerced boolean to boolean, integer to int64, unsigned to uint32, float to
double, visible/mms string to string, anything else to nil (the spec-side
table `specCoerceMms`); the per-read error is reported inside the value
record while the envelope's outer error is nil, and no state changes. -/
theorem c9_client_read_contract (orc : StackOracle) (actx : ActionContextM) (st : BackendContextM)
    (iid : String) (inst : ClientInstanceContextM) (refObj : MValue)
    (hidk : find_key actx.payload "instance_id" = some (.str iid)) (hne : iid ≠ "")
    (href : find_key actx.payload "reference" = some refObj)
    (hinst : getClientInstance st iid = some inst) (hconn : inst.connection = some ()) :
    (clientReadHandle orc actx st).toks
      = [.tstr "payload", .tmap 1, .tstr "value"]
        ++ (match specReadResult orc.read_object (as_string refObj "") with
            | (e, some v) => if e.ok then readSuccessRecord v else readFailureRecord e
            | (e, none) => readFailureRecord e)
        ++ [.tstr "error", .tnil]
    ∧ (clientReadHandle orc actx st).ctx = st
    ∧ (clientReadHandle orc actx st).evs = [] := by
  have hx : extract_instance_id actx.payload = iid := by
    simp [extract_instance_id, hidk, as_string, hne]
  have hrl : readLoop orc.read_object (as_string refObj "") [FC.st, FC.mx, FC.sp, FC.cf]
      (⟨true, "no error"⟩, none) = specReadResult orc.read_object (as_string refObj "") :=
    readLoop_eq_specReadResult orc.read_object (as_string refObj "") (⟨true, "no error"⟩, none)
  rcases hres : specReadResult orc.read_object (as_string refObj "") with ⟨e, v⟩
  refine ⟨?_, ?_, ?_⟩ <;>
    cases v <;>
      by_cases hok : e.ok = true <;>
        simp [clientReadHandle, hx, hne, hinst, hconn, href, hrl, hres, hok,
              readSuccessRecord, readFailureRecord, packMmsValueToks_eq_spec]

/-- C9 witness: a concrete oracle whose ST read fails and whose MX read
returns an unsigned 7; the packed record carries uint 7 with nil per-read
error, and the outer error is nil. -/
theorem c9_client_read_contract_witness :
    find_key c9actx.payload "instance_id" = some (.str "c")
    ∧ find_key c9actx.payload "reference" = some (.str "LD/LN.DO.da")
    ∧ ((clientReadHandle c9oracle c9actx c9st).toks
        = [.tstr "payload", .tmap 1, .tstr "value"]
          ++ (match specReadResult c9oracle.read_object (as_string (.str "LD/LN.DO.da") "") with
              | (e, some v) => if e.ok then readSuccessRecord v else readFailureRecord e
              | (e, none) => readFailureRecord e)
          ++ [.tstr "error", .tnil]
       ∧ (clientReadHandle c9oracle c9actx c9st).ctx = c9st
       ∧ (clientReadHandle c9oracle c9actx c9st).evs = [])
    ∧ (clientReadHandle c9oracle c9actx c9st).toks
        = [.tstr "payload", .tmap 1, .tstr "value",
           .tmap 4, .tstr "value", .tuint 7, .tstr "quality", .tint 0, .tstr "timestamp", .tnil,
           .tstr "error", .tnil, .tstr "error", .tnil] := by
  refine ⟨rfl, rfl, ?_, ?_⟩
  · exact c9_client_read_contract c9oracle c9actx c9st "c" _ (.str "LD/LN.DO.da")
      rfl (by decide) rfl rfl rfl
  · rfl

/-- C10: `remove_ip_address` returns true without opening a netlink
session (no netlink operation at all) whenever the address is the
wildcard `0.0.0.0` or begins with `127.` — the guard the spec states only
for the add path is applied on removal. -/
theorem c10_remove_ip_loopback_guard (o : NlOracle) (iface ip : String) (prefixLen : Int)
    (hip : ip = "0.0.0.0" ∨ ip.take 4 = "127.") :
    remove_ip_address o iface ip prefixLen = (true, []) := by
  unfold remove_ip_address
  simp [should_configure_ip_eq_false hip]

/-- C10 witness at a loopback address. -/
theorem c10_remove_ip_loopback_guard_witness :
    (("127.0.0.1" : String) = "0.0.0.0" ∨ ("127.0.0.1" : String).take 4 = "127.")
    ∧ remove_ip_address {} "eth0" "127.0.0.1" 24 = (true, []) :=
  ⟨Or.inr rfl, c10_remove_ip_loopback_guard {} "eth0" "127.0.0.1" 24 (Or.inr rfl)⟩

end IecSim
